import Mathlib

/-!
Verification of the telegram-mcp-api Python client (src/telegram_client.py)
against its natural-language specification.

The development shallowly embeds the client's request/response translation
layer: JSON values with Python truthiness, the envelope-unwrapping pipeline of
TelegramClient._request, the per-operation request builders, and the close
lifecycle. External libraries (the json stdlib module, the httpx transport)
are modelled where the client's observable behaviour depends on them; every
definition taken from the repository's source names the lines it embeds.
-/

/-- JSON values as Python's json module materialises them: null becomes None,
objects become dicts (modelled as ordered key/value lists, lookup taking the
last binding as Python's dict construction does on duplicate keys), numbers
restricted to integers (no operation in this client manipulates fractional
payloads). -/
inductive Json where
  | null
  | bool (b : Bool)
  | num (n : Int)
  | str (s : String)
  | arr (elems : List Json)
  | obj (fields : List (String × Json))

/-- Python truthiness of a decoded JSON value: None, False, 0, empty string,
empty list and empty dict are falsy, everything else truthy. This is the
semantics of the bare conditions in the source (lines 74, 78, 99, 126, 151,
153, 199, 218, 276, 288, 309, 334). -/
def pyTruthy : Json → Bool
  | .null => false
  | .bool b => b
  | .num n => n != 0
  | .str s => s != ""
  | .arr elems => !elems.isEmpty
  | .obj fields => !fields.isEmpty

/-- Last binding of a key in an ordered field list; Python dict construction
keeps the last duplicate, so lookup of the materialised dict is lookup of the
last occurrence here. -/
def lookupLast : List (String × Json) → String → Option Json
  | [], _ => none
  | (k, v) :: rest, key =>
    match lookupLast rest key with
    | some w => some w
    | none => if k = key then some v else none

/-- Python dict.get(key): the stored value when the key is present (even when
that value is null), None otherwise. -/
def dictGet (fields : List (String × Json)) (key : String) : Json :=
  (lookupLast fields key).getD .null

/-- Python dict.get(key, default): the stored value when the key is present,
the default otherwise. Presence, not truthiness, selects the branch. -/
def dictGetD (fields : List (String × Json)) (key : String) (dflt : Json) : Json :=
  (lookupLast fields key).getD dflt

/-- Whether a list of fields contains a binding for the key. -/
def hasKey (fields : List (String × Json)) (key : String) : Bool :=
  fields.any (fun p => p.1 = key)

/-! ### A model of json.loads

The client calls the stdlib decoder twice: httpx's response.json() on the raw
body, and json.loads on a string-valued data field (line 80). The model below
is a recursive-descent decoder for the JSON grammar restricted to integer
numerals; it accepts the standard literals, strings with the standard escape
set, arrays and objects, and rejects everything else — in particular any
input with trailing garbage, which is how Python signals json.JSONDecodeError. -/

/-- Value of a hexadecimal digit, for \u escapes. -/
def hexVal (c : Char) : Option Nat :=
  if '0' ≤ c ∧ c ≤ '9' then some (c.toNat - '0'.toNat)
  else if 'a' ≤ c ∧ c ≤ 'f' then some (c.toNat - 'a'.toNat + 10)
  else if 'A' ≤ c ∧ c ≤ 'F' then some (c.toNat - 'A'.toNat + 10)
  else none

/-- Single-character escapes of the JSON grammar. -/
def escChar : Char → Option Char
  | '"' => some '"'
  | '\\' => some '\\'
  | '/' => some '/'
  | 'b' => some (Char.ofNat 8)
  | 'f' => some (Char.ofNat 12)
  | 'n' => some '\n'
  | 'r' => some '\r'
  | 't' => some '\t'
  | _ => none

/-- Drop leading JSON whitespace. -/
def skipWs : List Char → List Char
  | c :: cs => if c = ' ' ∨ c = '\t' ∨ c = '\n' ∨ c = '\r' then skipWs cs else c :: cs
  | [] => []

/-- Decode the remainder of a JSON string literal (the opening quote already
consumed), returning the decoded text and the input after the closing quote. -/
def parseStrBody : List Char → Option (String × List Char)
  | [] => none
  | '"' :: rest => some ("", rest)
  | '\\' :: 'u' :: a :: b :: c :: d :: rest =>
    match hexVal a, hexVal b, hexVal c, hexVal d with
    | some x1, some x2, some x3, some x4 =>
      match parseStrBody rest with
      | some (s, r) =>
        some (String.mk (Char.ofNat (((x1 * 16 + x2) * 16 + x3) * 16 + x4) :: s.data), r)
      | none => none
    | _, _, _, _ => none
  | '\\' :: e :: rest =>
    match escChar e with
    | some ec =>
      match parseStrBody rest with
      | some (s, r) => some (String.mk (ec :: s.data), r)
      | none => none
    | none => none
  | c :: rest =>
    match parseStrBody rest with
    | some (s, r) => some (String.mk (c :: s.data), r)
    | none => none

/-- Digits of a decimal numeral, most significant first, as a Nat. -/
def digitsVal (acc : Nat) : List Char → Nat × List Char
  | c :: cs =>
    if '0' ≤ c ∧ c ≤ '9' then digitsVal (acc * 10 + (c.toNat - '0'.toNat)) cs
    else (acc, c :: cs)
  | [] => (acc, [])

/-- Decode a JSON integer numeral: an optional minus sign, then either a lone
zero or a nonzero digit followed by digits (leading zeros are rejected, as the
JSON grammar requires). -/
def parseIntLit : List Char → Option (Int × List Char)
  | '-' :: cs =>
    match parseIntLit cs with
    | some (n, rest) => if n = 0 then some (0, rest) else some (-n, rest)
    | none => none
  | '0' :: cs => some (0, cs)
  | c :: cs =>
    if '1' ≤ c ∧ c ≤ '9' then
      let (n, rest) := digitsVal (c.toNat - '0'.toNat) cs
      some ((n : Int), rest)
    else none
  | [] => none

/-- Mode of the decoder's fueled loop: decoding one value, the remaining
elements of an array, or the remaining fields of an object. -/
inductive PMode where
  | value
  | elems (acc : List Json)
  | fields (acc : List (String × Json))

/-- One fueled recursive-descent decoder covering values, array tails and
object tails; fuel only bounds nesting-plus-element count and is supplied
generously at the top level. -/
def parseStep : Nat → PMode → List Char → Option (Json × List Char)
  | 0, _, _ => none
  | n + 1, .value, cs =>
    match skipWs cs with
    | 'n' :: 'u' :: 'l' :: 'l' :: rest => some (.null, rest)
    | 't' :: 'r' :: 'u' :: 'e' :: rest => some (.bool true, rest)
    | 'f' :: 'a' :: 'l' :: 's' :: 'e' :: rest => some (.bool false, rest)
    | '"' :: rest =>
      match parseStrBody rest with
      | some (s, r) => some (.str s, r)
      | none => none
    | '[' :: rest =>
      match skipWs rest with
      | ']' :: rest2 => some (.arr [], rest2)
      | rest2 => parseStep n (.elems []) rest2
    | '{' :: rest =>
      match skipWs rest with
      | '}' :: rest2 => some (.obj [], rest2)
      | rest2 => parseStep n (.fields []) rest2
    | rest =>
      match parseIntLit rest with
      | some (v, r) => some (.num v, r)
      | none => none
  | n + 1, .elems acc, cs =>
    match parseStep n .value cs with
    | some (v, rest) =>
      match skipWs rest with
      | ',' :: rest2 => parseStep n (.elems (acc ++ [v])) rest2
      | ']' :: rest2 => some (.arr (acc ++ [v]), rest2)
      | _ => none
    | none => none
  | n + 1, .fields acc, cs =>
    match skipWs cs with
    | '"' :: rest =>
      match parseStrBody rest with
      | some (k, rest2) =>
        match skipWs rest2 with
        | ':' :: rest3 =>
          match parseStep n .value rest3 with
          | some (v, rest4) =>
            match skipWs rest4 with
            | ',' :: rest5 => parseStep n (.fields (acc ++ [(k, v)])) rest5
            | '}' :: rest5 => some (.obj (acc ++ [(k, v)]), rest5)
            | _ => none
          | none => none
        | _ => none
      | none => none
    | _ => none

/-- Model of Python json.loads restricted to integer numerals: decode one JSON
value and require that only whitespace remains; any violation of the grammar
becomes None, the image of json.JSONDecodeError. -/
def json_loads (s : String) : Option Json :=
  match parseStep (2 * s.length + 8) .value s.data with
  | some (v, rest) => if skipWs rest = [] then some v else none
  | none => none

/-- Sanity check of the decoder model on an object with a string field. -/
theorem json_loads_object_check : json_loads "\x7b\"a\":1\x7d" = some (.obj [("a", .num 1)]) := rfl

/-- Sanity check of the decoder model: prose is rejected. -/
theorem json_loads_prose_check : json_loads "plain text" = none := rfl

/-- Sanity check of the decoder model: the empty input is rejected. -/
theorem json_loads_empty_check : json_loads "" = none := rfl

/-- Sanity check of the decoder model on an array of mixed scalars. -/
theorem json_loads_array_check : json_loads " [1, -2, \"x\", true, null] "
    = some (.arr [.num 1, .num (-2), .str "x", .bool true, .null]) := rfl

/-! ### The response side of the core request path (TelegramClient._request) -/

/-- The exception kinds that can leave TelegramClient._request: the client's
own error (line 75, carrying the message object passed to the constructor),
the httpx transport exceptions (ConnectError, TimeoutException) from the
request call on lines 64-69, httpx.HTTPStatusError from raise_for_status on
line 70, json.JSONDecodeError from response.json() on line 72, and
AttributeError when the decoded body is not a dict and line 74 calls .get on
it. -/
inductive PyExc where
  | telegramClientError (msg : Json)
  | httpxTransportError (msg : String)
  | httpxStatusError (status : Nat)
  | jsonDecodeError
  | attributeError

/-- Outcome of the httpx round trip: either the transport raised (connection
refused, timeout), or a response arrived with a status code and a raw body
text. -/
inductive TransportResult where
  | failure (msg : String)
  | response (status : Nat) (bodyText : String)

/-- Success range of httpx: response.raise_for_status() returns normally
exactly on 2xx statuses. -/
def is2xx (status : Nat) : Bool := decide (200 ≤ status) && decide (status < 300)

/-- Lines 74-83 of TelegramClient._request, applied to the decoded response
dict: raise TelegramClientError with the error field (default the string
"Unknown error") when the success value is falsy; otherwise take the data
field and, when it is truthy, try a second json.loads — a string that decodes
is replaced by the decoded value, a string that does not (JSONDecodeError) and
a non-string (TypeError) are returned unchanged; falsy data is returned
as-is. -/
def unwrapEnvelope (result : List (String × Json)) : Except PyExc Json :=
  if pyTruthy (dictGet result "success") then
    let data := dictGet result "data"
    if pyTruthy data then
      match data with
      | .str s =>
        match json_loads s with
        | some v => .ok v
        | none => .ok (.str s)
      | _ => .ok data
    else .ok data
  else .error (.telegramClientError (dictGetD result "error" (.str "Unknown error")))

/-- Lines 64-83 of TelegramClient._request from the transport outcome on: a
transport failure propagates as the httpx exception (no handler in the
source), raise_for_status raises on a non-2xx status, response.json() decodes
the body (raising on undecodable text), and a decoded dict goes through the
envelope unwrapping. -/
def handleResponse : TransportResult → Except PyExc Json
  | .failure msg => .error (.httpxTransportError msg)
  | .response status bodyText =>
    if is2xx status then
      match json_loads bodyText with
      | some (.obj fields) => unwrapEnvelope fields
      | some _ => .error .attributeError
      | none => .error .jsonDecodeError
    else .error (.httpxStatusError status)

/-- Whether an outcome is the client's own error kind (TelegramClientError). -/
def isClientError : Except PyExc Json → Bool
  | .error (.telegramClientError _) => true
  | _ => false

/-! ### The request side: client construction and the per-operation builders -/

/-- Python str.rstrip("/"): remove every trailing slash. -/
def rstripSlashes (s : String) : String :=
  String.mk ((s.data.reverse.dropWhile (fun c => c = '/')).reverse)

/-- The client handle; line 40 stores the base address with trailing slashes
stripped. The timeout and the connection resource do not influence request
construction, and the connection's close lifecycle is modelled separately
below. -/
structure TelegramClient where
  base_url : String

/-- TelegramClient.__init__ (lines 32-42): strip trailing slashes from the
supplied base address and store it. -/
def TelegramClient.init (base_url : String) : TelegramClient :=
  ⟨rstripSlashes base_url⟩

/-- An outgoing HTTP request as handed to httpx on lines 64-69: method, full
URL, optional query parameters, optional JSON body. -/
structure HttpRequest where
  method : String
  url : String
  params : Option (List (String × Json))
  json_data : Option (List (String × Json))

/-- URL composition and dispatch of TelegramClient._request (line 62 and
64-69): the URL is the stored base address concatenated with the endpoint. -/
def TelegramClient.request (c : TelegramClient) (method endpoint : String)
    (params json_data : Option (List (String × Json))) : HttpRequest :=
  ⟨method, c.base_url ++ endpoint, params, json_data⟩

/-- TelegramClient._get (lines 85-87): keyword arguments become query
parameters, no JSON body. -/
def TelegramClient.get (c : TelegramClient) (endpoint : String)
    (params : List (String × Json)) : HttpRequest :=
  c.request "GET" endpoint (some params) none

/-- TelegramClient._post (lines 89-91): keyword arguments become the JSON
body, no query parameters. -/
def TelegramClient.post (c : TelegramClient) (endpoint : String)
    (data : List (String × Json)) : HttpRequest :=
  c.request "POST" endpoint none (some data)

/-- TelegramClient._put (lines 93-95): keyword arguments become the JSON
body, no query parameters. -/
def TelegramClient.put (c : TelegramClient) (endpoint : String)
    (data : List (String × Json)) : HttpRequest :=
  c.request "PUT" endpoint none (some data)

/-- TelegramClient._delete (lines 97-101): a JSON body only when at least one
keyword argument was passed (the kwargs dict is truthy), otherwise no body
argument at all. -/
def TelegramClient.delete (c : TelegramClient) (endpoint : String)
    (data : List (String × Json)) : HttpRequest :=
  if data.isEmpty then c.request "DELETE" endpoint none none
  else c.request "DELETE" endpoint none (some data)

/-- Python Union[int, str] arguments (chat and user identifiers). -/
inductive IntOrStr where
  | int (n : Int)
  | str (s : String)

/-- How an identifier serialises into a JSON payload value. -/
def IntOrStr.toJson : IntOrStr → Json
  | .int n => .num n
  | .str s => .str s

/-- How an identifier renders inside an f-string path (Python str()). -/
def IntOrStr.render : IntOrStr → String
  | .int n => toString n
  | .str s => s

/-- Python truthiness of an identifier: zero and the empty string are falsy. -/
def IntOrStr.isTruthy : IntOrStr → Bool
  | .int n => n != 0
  | .str s => s != ""

/-! ### The public operation catalog (lines 105-340), one builder per method.
Optional keyword arguments arrive as Option values; the source guards each
with a bare truthiness test, so a provided falsy value takes the same branch
as an absent one. -/

/-- TelegramClient.health_check (lines 105-109): a direct GET on the fixed
/health path, outside the _get/_request helpers. -/
def TelegramClient.health_check (c : TelegramClient) : HttpRequest :=
  ⟨"GET", c.base_url ++ "/health", none, none⟩

/-- TelegramClient.get_chats (lines 113-115). -/
def TelegramClient.get_chats (c : TelegramClient) (page page_size : Int) : HttpRequest :=
  c.get "/chats" [("page", .num page), ("page_size", .num page_size)]

/-- Query dict built by TelegramClient.list_chats (lines 125-127): chat_type
is added only when truthy. -/
def list_chats_params (limit : Int) (chat_type : Option String)
    (archived unread_only : Bool) : List (String × Json) :=
  let params := [("limit", Json.num limit), ("archived", Json.bool archived),
    ("unread_only", Json.bool unread_only)]
  match chat_type with
  | some t => if t = "" then params else params ++ [("chat_type", Json.str t)]
  | none => params

/-- TelegramClient.list_chats (lines 117-128). -/
def TelegramClient.list_chats (c : TelegramClient) (limit : Int)
    (chat_type : Option String) (archived unread_only : Bool) : HttpRequest :=
  c.get "/chats/list" (list_chats_params limit chat_type archived unread_only)

/-- TelegramClient.get_chat (lines 130-132). -/
def TelegramClient.get_chat (c : TelegramClient) (chat_id : IntOrStr) : HttpRequest :=
  c.get ("/chats/" ++ chat_id.render) []

/-- TelegramClient.get_messages (lines 136-140). -/
def TelegramClient.get_messages (c : TelegramClient) (chat_id : IntOrStr)
    (page page_size : Int) : HttpRequest :=
  c.get ("/chats/" ++ chat_id.render ++ "/messages")
    [("page", .num page), ("page_size", .num page_size)]

/-- Body dict built by TelegramClient.send_message (lines 150-154): reply_to
and parse_mode are added only when truthy. -/
def send_message_data (chat_id : IntOrStr) (message : String)
    (reply_to : Option Int) (parse_mode : Option String) : List (String × Json) :=
  let data := [("chat_id", chat_id.toJson), ("message", Json.str message)]
  let data :=
    match reply_to with
    | some r => if r = 0 then data else data ++ [("reply_to", Json.num r)]
    | none => data
  match parse_mode with
  | some p => if p = "" then data else data ++ [("parse_mode", Json.str p)]
  | none => data

/-- TelegramClient.send_message (lines 142-155). -/
def TelegramClient.send_message (c : TelegramClient) (chat_id : IntOrStr)
    (message : String) (reply_to : Option Int) (parse_mode : Option String) : HttpRequest :=
  c.post "/messages/send" (send_message_data chat_id message reply_to parse_mode)

/-- TelegramClient.edit_message (lines 157-166). -/
def TelegramClient.edit_message (c : TelegramClient) (chat_id : IntOrStr)
    (message_id : Int) (new_text : String) : HttpRequest :=
  c.put "/messages/edit" [("chat_id", chat_id.toJson),
    ("message_id", .num message_id), ("new_text", .str new_text)]

/-- TelegramClient.delete_message (lines 168-177). -/
def TelegramClient.delete_message (c : TelegramClient) (chat_id : IntOrStr)
    (message_id : Int) (revoke : Bool) : HttpRequest :=
  c.delete "/messages/delete" [("chat_id", chat_id.toJson),
    ("message_id", .num message_id), ("revoke", .bool revoke)]

/-- TelegramClient.forward_message (lines 179-188). -/
def TelegramClient.forward_message (c : TelegramClient)
    (from_chat_id to_chat_id : IntOrStr) (message_id : Int) : HttpRequest :=
  c.post "/messages/forward" [("from_chat_id", from_chat_id.toJson),
    ("to_chat_id", to_chat_id.toJson), ("message_id", .num message_id)]

/-- Body dict built by TelegramClient.search_messages (lines 198-200):
from_user is added only when truthy. -/
def search_messages_data (chat_id : IntOrStr) (query : String) (limit : Int)
    (from_user : Option IntOrStr) : List (String × Json) :=
  let data := [("chat_id", chat_id.toJson), ("query", Json.str query),
    ("limit", Json.num limit)]
  match from_user with
  | some u => if u.isTruthy then data ++ [("from_user", u.toJson)] else data
  | none => data

/-- TelegramClient.search_messages (lines 190-201). -/
def TelegramClient.search_messages (c : TelegramClient) (chat_id : IntOrStr)
    (query : String) (limit : Int) (from_user : Option IntOrStr) : HttpRequest :=
  c.post "/messages/search" (search_messages_data chat_id query limit from_user)

/-- TelegramClient.list_contacts (lines 205-207). -/
def TelegramClient.list_contacts (c : TelegramClient) : HttpRequest :=
  c.get "/contacts" []

/-- TelegramClient.search_contacts (lines 209-211). -/
def TelegramClient.search_contacts (c : TelegramClient) (query : String)
    (limit : Int) : HttpRequest :=
  c.get "/contacts/search" [("query", .str query), ("limit", .num limit)]

/-- Body dict built by TelegramClient.add_contact (lines 217-219): last_name
is added only when truthy. -/
def add_contact_data (phone first_name : String)
    (last_name : Option String) : List (String × Json) :=
  let data := [("phone", Json.str phone), ("first_name", Json.str first_name)]
  match last_name with
  | some l => if l = "" then data else data ++ [("last_name", Json.str l)]
  | none => data

/-- TelegramClient.add_contact (lines 213-220). -/
def TelegramClient.add_contact (c : TelegramClient) (phone first_name : String)
    (last_name : Option String) : HttpRequest :=
  c.post "/contacts" (add_contact_data phone first_name last_name)

/-- TelegramClient.delete_contact (lines 222-224). -/
def TelegramClient.delete_contact (c : TelegramClient) (user_id : IntOrStr) : HttpRequest :=
  c.delete ("/contacts/" ++ user_id.render) []

/-- TelegramClient.get_me (lines 228-230). -/
def TelegramClient.get_me (c : TelegramClient) : HttpRequest :=
  c.get "/me" []

/-- TelegramClient.get_user_status (lines 232-234). -/
def TelegramClient.get_user_status (c : TelegramClient) (user_id : IntOrStr) : HttpRequest :=
  c.get ("/users/" ++ user_id.render ++ "/status") []

/-- TelegramClient.resolve_username (lines 236-238). -/
def TelegramClient.resolve_username (c : TelegramClient) (username : String) : HttpRequest :=
  c.get ("/resolve/" ++ username) []

/-- TelegramClient.create_group (lines 242-244). -/
def TelegramClient.create_group (c : TelegramClient) (title : String)
    (users : List IntOrStr) : HttpRequest :=
  c.post "/groups" [("title", .str title), ("users", .arr (users.map IntOrStr.toJson))]

/-- TelegramClient.invite_to_group (lines 246-250). -/
def TelegramClient.invite_to_group (c : TelegramClient) (chat_id : IntOrStr)
    (user_ids : List IntOrStr) : HttpRequest :=
  c.post "/groups/invite" [("chat_id", chat_id.toJson),
    ("user_ids", .arr (user_ids.map IntOrStr.toJson))]

/-- TelegramClient.leave_chat (lines 252-254): a POST with no keyword
arguments, so the kwargs dict is empty and the JSON body is the empty
object. -/
def TelegramClient.leave_chat (c : TelegramClient) (chat_id : IntOrStr) : HttpRequest :=
  c.post ("/chats/" ++ chat_id.render ++ "/leave") []

/-- TelegramClient.get_participants (lines 256-260). -/
def TelegramClient.get_participants (c : TelegramClient) (chat_id : IntOrStr)
    (limit offset : Int) : HttpRequest :=
  c.get ("/chats/" ++ chat_id.render ++ "/participants")
    [("limit", .num limit), ("offset", .num offset)]

/-- TelegramClient.get_admins (lines 264-266). -/
def TelegramClient.get_admins (c : TelegramClient) (chat_id : IntOrStr) : HttpRequest :=
  c.get ("/chats/" ++ chat_id.render ++ "/admins") []

/-- Body dict built by TelegramClient.promote_admin (lines 275-277): title is
added only when truthy. -/
def promote_admin_data (chat_id user_id : IntOrStr)
    (title : Option String) : List (String × Json) :=
  let data := [("chat_id", chat_id.toJson), ("user_id", user_id.toJson)]
  match title with
  | some t => if t = "" then data else data ++ [("title", Json.str t)]
  | none => data

/-- TelegramClient.promote_admin (lines 268-278). -/
def TelegramClient.promote_admin (c : TelegramClient) (chat_id user_id : IntOrStr)
    (title : Option String) : HttpRequest :=
  c.post "/admin/promote" (promote_admin_data chat_id user_id title)

/-- Body dict built by TelegramClient.ban_user (lines 287-289): until_date is
added only when truthy. -/
def ban_user_data (chat_id user_id : IntOrStr)
    (until_date : Option Int) : List (String × Json) :=
  let data := [("chat_id", chat_id.toJson), ("user_id", user_id.toJson)]
  match until_date with
  | some u => if u = 0 then data else data ++ [("until_date", Json.num u)]
  | none => data

/-- TelegramClient.ban_user (lines 280-290). -/
def TelegramClient.ban_user (c : TelegramClient) (chat_id user_id : IntOrStr)
    (until_date : Option Int) : HttpRequest :=
  c.post "/admin/ban" (ban_user_data chat_id user_id until_date)

/-- TelegramClient.unban_user (lines 292-294). -/
def TelegramClient.unban_user (c : TelegramClient) (chat_id user_id : IntOrStr) : HttpRequest :=
  c.post "/admin/unban" [("chat_id", chat_id.toJson), ("user_id", user_id.toJson)]

/-- TelegramClient.get_invite_link (lines 298-300). -/
def TelegramClient.get_invite_link (c : TelegramClient) (chat_id : IntOrStr) : HttpRequest :=
  c.get ("/chats/" ++ chat_id.render ++ "/invite-link") []

/-- Body dict built by TelegramClient.mute_chat (lines 308-310): it starts
empty and mute_until is added only when truthy. -/
def mute_chat_params (mute_until : Option Int) : List (String × Json) :=
  match mute_until with
  | some m => if m = 0 then [] else [("mute_until", Json.num m)]
  | none => []

/-- TelegramClient.mute_chat (lines 304-311). -/
def TelegramClient.mute_chat (c : TelegramClient) (chat_id : IntOrStr)
    (mute_until : Option Int) : HttpRequest :=
  c.post ("/chats/" ++ chat_id.render ++ "/mute") (mute_chat_params mute_until)

/-- TelegramClient.unmute_chat (lines 313-315). -/
def TelegramClient.unmute_chat (c : TelegramClient) (chat_id : IntOrStr) : HttpRequest :=
  c.post ("/chats/" ++ chat_id.render ++ "/unmute") []

/-- TelegramClient.archive_chat (lines 319-321). -/
def TelegramClient.archive_chat (c : TelegramClient) (chat_id : IntOrStr) : HttpRequest :=
  c.post ("/chats/" ++ chat_id.render ++ "/archive") []

/-- TelegramClient.unarchive_chat (lines 323-325). -/
def TelegramClient.unarchive_chat (c : TelegramClient) (chat_id : IntOrStr) : HttpRequest :=
  c.post ("/chats/" ++ chat_id.render ++ "/unarchive") []

/-- Body dict built by TelegramClient.save_draft (lines 333-335): reply_to is
added only when truthy. -/
def save_draft_data (chat_id : IntOrStr) (message : String)
    (reply_to : Option Int) : List (String × Json) :=
  let data := [("chat_id", chat_id.toJson), ("message", Json.str message)]
  match reply_to with
  | some r => if r = 0 then data else data ++ [("reply_to", Json.num r)]
  | none => data

/-- TelegramClient.save_draft (lines 329-336). -/
def TelegramClient.save_draft (c : TelegramClient) (chat_id : IntOrStr)
    (message : String) (reply_to : Option Int) : HttpRequest :=
  c.post "/drafts/save" (save_draft_data chat_id message reply_to)

/-- TelegramClient.clear_draft (lines 338-340). -/
def TelegramClient.clear_draft (c : TelegramClient) (chat_id : IntOrStr) : HttpRequest :=
  c.delete ("/drafts/" ++ chat_id.render) []

/-! ### The close lifecycle (lines 42-52) -/

/-- State of the underlying httpx.Client connection resource: whether it has
been closed, and how many times the transport has actually been released. -/
structure HttpxConn where
  is_closed : Bool
  released : Nat

/-- The freshly acquired connection of line 42. -/
def freshConn : HttpxConn := ⟨false, 0⟩

/-- Models httpx.Client.close (external library): the first close releases
the transport and marks the client closed; closing an already-closed client
is a no-op and releases nothing. -/
def httpxClose (conn : HttpxConn) : HttpxConn :=
  if conn.is_closed then conn else ⟨true, conn.released + 1⟩

/-- TelegramClient.close (lines 50-52): delegate to the connection's close. -/
def TelegramClient.close (conn : HttpxConn) : HttpxConn :=
  httpxClose conn

/-- TelegramClient.__exit__ (lines 47-48): scope exit calls close. -/
def TelegramClient.scopeExit (conn : HttpxConn) : HttpxConn :=
  TelegramClient.close conn

/-- Iterated close calls. -/
def closeN : Nat → HttpxConn → HttpxConn
  | 0, conn => conn
  | n + 1, conn => closeN n (TelegramClient.close conn)

/-- Lines 107-109 of TelegramClient.health_check from the transport outcome
on: raise_for_status, then return response.json() verbatim — no envelope
inspection of any kind. -/
def healthHandle : TransportResult → Except PyExc Json
  | .failure msg => .error (.httpxTransportError msg)
  | .response status bodyText =>
    if is2xx status then
      match json_loads bodyText with
      | some v => .ok v
      | none => .error .jsonDecodeError
    else .error (.httpxStatusError status)

/-- Whether a string's last character is a slash. -/
def endsWithSlash (s : String) : Bool :=
  match s.data.getLast? with
  | some c => decide (c = '/')
  | none => false

/-- Whether concatenating the two strings would put two slashes next to each
other at the join point. -/
def joinDoubleSlash (a b : String) : Bool :=
  match a.data.getLast?, b.data.head? with
  | some x, some y => decide (x = '/') && decide (y = '/')
  | _, _ => false

/-! ### Helper lemmas -/

/-- The head of a dropWhile output never satisfies the dropped predicate. -/
theorem head_dropWhile_eq_false {α : Type} {p : α → Bool} :
    ∀ (l : List α) (c : α), (l.dropWhile p).head? = some c → p c = false := by
  intro l
  induction l with
  | nil => intro c h; simp [List.dropWhile] at h
  | cons x xs ih =>
    intro c h
    rw [List.dropWhile_cons] at h
    by_cases hx : p x
    · rw [if_pos hx] at h
      exact ih c h
    · rw [if_neg hx] at h
      simp at h
      rw [← h]
      exact Bool.not_eq_true _ |>.mp hx

/-- Closing an already-closed connection changes nothing, however often it is
repeated. -/
theorem closeN_closed (n k : Nat) : closeN n ⟨true, k⟩ = ⟨true, k⟩ := by
  induction n with
  | zero => rfl
  | succ m ih => simpa [closeN, TelegramClient.close, httpxClose] using ih

/-- On a falsy success value the envelope unwrapping raises the client error
with the stored error field, defaulting to the string "Unknown error". -/
theorem unwrapEnvelope_falsy (fields : List (String × Json))
    (hfail : pyTruthy (dictGet fields "success") = false) :
    unwrapEnvelope fields
      = .error (.telegramClientError (dictGetD fields "error" (.str "Unknown error"))) := by
  simp [unwrapEnvelope, hfail]

/-- On a truthy success value the envelope unwrapping reduces to the data
extraction step. -/
theorem unwrapEnvelope_truthy (fields : List (String × Json))
    (hsucc : pyTruthy (dictGet fields "success") = true) :
    unwrapEnvelope fields =
      if pyTruthy (dictGet fields "data") then
        match dictGet fields "data" with
        | .str s =>
          match json_loads s with
          | some v => .ok v
          | none => .ok (.str s)
        | _ => .ok (dictGet fields "data")
      else .ok (dictGet fields "data") := by
  unfold unwrapEnvelope
  rw [if_pos hsucc]

/-! ### Claim theorems -/

/-- C1: for every operation on the core request path, after a 2xx response
whose body decodes to an envelope dict in which the success field is false or
absent, the operation raises TelegramClientError whose message is the
envelope's error field, defaulting to the string "Unknown error" when the
error key is absent; no data is returned in that case (the outcome is the
error, not an ok value). -/
theorem claim_C1_falsy_success_raises (status : Nat) (bodyText : String)
    (fields : List (String × Json))
    (h2xx : is2xx status = true)
    (hbody : json_loads bodyText = some (.obj fields))
    (hfail : lookupLast fields "success" = some (.bool false)
      ∨ lookupLast fields "success" = none) :
    handleResponse (.response status bodyText)
      = .error (.telegramClientError (dictGetD fields "error" (.str "Unknown error"))) := by
  have hfalsy : pyTruthy (dictGet fields "success") = false := by
    rcases hfail with h | h <;> simp [dictGet, h, pyTruthy]
  simp [handleResponse, h2xx, hbody]
  exact unwrapEnvelope_falsy fields hfalsy

/-- Witness for C1: the spec's two concrete envelopes, success false with an
error message and success false with no error key. -/
theorem claim_C1_falsy_success_raises_witness :
    handleResponse (.response 200 "\x7b\"success\": false, \"error\": \"chat not found\"\x7d")
      = .error (.telegramClientError (.str "chat not found")) ∧
    handleResponse (.response 200 "\x7b\"success\": false\x7d")
      = .error (.telegramClientError (.str "Unknown error")) := by
  constructor
  · exact claim_C1_falsy_success_raises 200
      "\x7b\"success\": false, \"error\": \"chat not found\"\x7d"
      [("success", .bool false), ("error", .str "chat not found")] rfl rfl (.inl rfl)
  · exact claim_C1_falsy_success_raises 200 "\x7b\"success\": false\x7d"
      [("success", .bool false)] rfl rfl (.inl rfl)

/-- C2: for every successful envelope (truthy success), the core request path
extracts the data field; a string data value is put through a second
json.loads whose decoded value is returned on success and whose failure
returns the raw string unchanged, and a falsy or absent data value is
returned as-is without decoding. -/
theorem claim_C2_data_second_decode (status : Nat) (bodyText : String)
    (fields : List (String × Json))
    (h2xx : is2xx status = true)
    (hbody : json_loads bodyText = some (.obj fields))
    (hsucc : pyTruthy (dictGet fields "success") = true) :
    (∀ s, lookupLast fields "data" = some (.str s) →
      handleResponse (.response status bodyText) = .ok ((json_loads s).getD (.str s))) ∧
    (pyTruthy (dictGet fields "data") = false →
      handleResponse (.response status bodyText) = .ok (dictGet fields "data")) := by
  have hmain : handleResponse (.response status bodyText) = unwrapEnvelope fields := by
    simp [handleResponse, h2xx, hbody]
  constructor
  · intro s hs
    rw [hmain]
    have hd : dictGet fields "data" = .str s := by simp [dictGet, hs]
    rw [unwrapEnvelope_truthy fields hsucc, hd]
    by_cases hempty : s = ""
    · subst hempty
      rfl
    · have ht : pyTruthy (.str s) = true := by simp [pyTruthy, hempty]
      rw [if_pos ht]
      cases hjl : json_loads s <;> simp [hjl]
  · intro hfalsy
    rw [hmain, unwrapEnvelope_truthy fields hsucc,
      if_neg (by simp [hfalsy] : ¬pyTruthy (dictGet fields "data") = true)]

/-- Witness for C2: the spec's two concrete envelopes, a data string that is
itself JSON and a data string that is not. -/
theorem claim_C2_data_second_decode_witness :
    handleResponse (.response 200
        "\x7b\"success\": true, \"data\": \"\x7b\\\"a\\\":1\x7d\"\x7d")
      = .ok (.obj [("a", .num 1)]) ∧
    handleResponse (.response 200 "\x7b\"success\": true, \"data\": \"plain text\"\x7d")
      = .ok (.str "plain text") := by
  constructor
  · exact (claim_C2_data_second_decode 200
      "\x7b\"success\": true, \"data\": \"\x7b\\\"a\\\":1\x7d\"\x7d"
      [("success", .bool true), ("data", .str "\x7b\"a\":1\x7d")] rfl rfl rfl).1
      "\x7b\"a\":1\x7d" rfl
  · exact (claim_C2_data_second_decode 200
      "\x7b\"success\": true, \"data\": \"plain text\"\x7d"
      [("success", .bool true), ("data", .str "plain text")] rfl rfl rfl).1
      "plain text" rfl

/-- C8: the envelope success test is pure truthiness, not a boolean
comparison: the client error is raised exactly when the success value is
falsy (false, 0, empty string, null, or key absent), and every truthy value —
including the number 1 and the non-empty string "false" — proceeds to data
extraction and yields an ok outcome. -/
theorem claim_C8_success_truthiness :
    (∀ fields, isClientError (unwrapEnvelope fields)
        = !pyTruthy (dictGet fields "success")) ∧
    unwrapEnvelope [("success", .num 1), ("data", .str "payload")] = .ok (.str "payload") ∧
    unwrapEnvelope [("success", .str "false"), ("data", .str "payload")]
      = .ok (.str "payload") ∧
    unwrapEnvelope [("success", .num 0)]
      = .error (.telegramClientError (.str "Unknown error")) ∧
    unwrapEnvelope [("success", .str "")]
      = .error (.telegramClientError (.str "Unknown error")) := by
  refine ⟨fun fields => ?_, rfl, rfl, rfl, rfl⟩
  cases hsucc : pyTruthy (dictGet fields "success")
  · rw [unwrapEnvelope_falsy fields hsucc]
    rfl
  · rw [unwrapEnvelope_truthy fields hsucc]
    by_cases hd : pyTruthy (dictGet fields "data") = true
    · rw [if_pos hd]
      cases dictGet fields "data" with
      | str s =>
        show isClientError (match json_loads s with
          | some v => Except.ok v
          | none => Except.ok (Json.str s)) = false
        cases json_loads s <;> rfl
      | null => rfl
      | bool b => rfl
      | num n => rfl
      | arr elems => rfl
      | obj fs => rfl
    · rw [if_neg hd]
      rfl

/-- Counterexample to C3 as stated: a transport-level failure does not
surface as TelegramClientError — it leaves the client as the transport
library's own exception — and a non-2xx status likewise surfaces as the
status exception, not the client error kind. -/
theorem claim_C3_counterexample :
    handleResponse (.failure "connection refused")
        = .error (.httpxTransportError "connection refused") ∧
    isClientError (handleResponse (.failure "connection refused")) = false ∧
    handleResponse (.response 500 "oops") = .error (.httpxStatusError 500) ∧
    isClientError (handleResponse (.response 500 "oops")) = false :=
  ⟨rfl, rfl, rfl, rfl⟩

/-- C3 amended: transport-level failures and non-2xx statuses propagate as
the underlying HTTP library's exception kinds — not as TelegramClientError —
because the core request path installs no handler around the transport call;
only a 2xx envelope with falsy success raises TelegramClientError, carrying
the envelope's error message. -/
theorem claim_C3_error_kinds :
    (∀ msg, handleResponse (.failure msg) = .error (.httpxTransportError msg)) ∧
    (∀ status bodyText, is2xx status = false →
      handleResponse (.response status bodyText) = .error (.httpxStatusError status)) ∧
    (∀ fields, pyTruthy (dictGet fields "success") = false →
      unwrapEnvelope fields
        = .error (.telegramClientError (dictGetD fields "error" (.str "Unknown error")))) ∧
    (∀ msg, isClientError (.error (.httpxTransportError msg) : Except PyExc Json) = false) ∧
    (∀ status, isClientError (.error (.httpxStatusError status) : Except PyExc Json) = false) := by
  refine ⟨fun msg => rfl, fun status bodyText hs => ?_, unwrapEnvelope_falsy,
    fun msg => rfl, fun status => rfl⟩
  simp [handleResponse, hs]

/-- Witness for the amended C3 at concrete inputs: a refused connection, a
404 on a well-formed body, and a failed envelope. -/
theorem claim_C3_error_kinds_witness :
    handleResponse (.failure "connection refused")
        = .error (.httpxTransportError "connection refused") ∧
    handleResponse (.response 404 "\x7b\"success\": true\x7d")
        = .error (.httpxStatusError 404) ∧
    unwrapEnvelope [("success", .bool false)]
        = .error (.telegramClientError (.str "Unknown error")) :=
  ⟨claim_C3_error_kinds.1 "connection refused",
    claim_C3_error_kinds.2.1 404 "\x7b\"success\": true\x7d" rfl,
    claim_C3_error_kinds.2.2.1 [("success", .bool false)] rfl⟩

/-- C5: the health-check operation alone bypasses envelope unwrapping — it
issues GET on the fixed /health path joined to the stored base address, and
on a 2xx response returns the JSON-decoded body verbatim with no success
check, no error-field inspection and no secondary decode, whatever keys the
body contains. -/
theorem claim_C5_health_bypasses_envelope (c : TelegramClient) (status : Nat)
    (bodyText : String) (body : Json)
    (h2xx : is2xx status = true) (hbody : json_loads bodyText = some body) :
    c.health_check = ⟨"GET", c.base_url ++ "/health", none, none⟩ ∧
    healthHandle (.response status bodyText) = .ok body := by
  refine ⟨rfl, ?_⟩
  simp [healthHandle, h2xx, hbody]

/-- Witness for C5: a body that carries a falsy success key is returned
verbatim rather than raised, and the request is a GET on /health. -/
theorem claim_C5_health_bypasses_envelope_witness :
    (TelegramClient.init "http://localhost:8080/").health_check
        = ⟨"GET", "http://localhost:8080/health", none, none⟩ ∧
    healthHandle (.response 200 "\x7b\"status\": \"ok\", \"success\": false\x7d")
        = .ok (.obj [("status", .str "ok"), ("success", .bool false)]) := by
  have h := claim_C5_health_bypasses_envelope (TelegramClient.init "http://localhost:8080/")
    200 "\x7b\"status\": \"ok\", \"success\": false\x7d"
    (.obj [("status", .str "ok"), ("success", .bool false)]) rfl rfl
  exact ⟨h.1, h.2⟩

/-- C7: close is idempotent — closing twice is the same as closing once, any
positive number of close calls on a fresh connection releases the transport
exactly once and leaves the connection closed, and the automatic scope-exit
call after an explicit close releases nothing further. -/
theorem claim_C7_close_idempotent :
    (∀ conn, TelegramClient.close (TelegramClient.close conn) = TelegramClient.close conn) ∧
    (∀ n, 1 ≤ n → (closeN n freshConn).released = 1
      ∧ (closeN n freshConn).is_closed = true) ∧
    (TelegramClient.scopeExit (TelegramClient.close freshConn)).released = 1 := by
  refine ⟨fun conn => ?_, fun n hn => ?_, rfl⟩
  · cases h : conn.is_closed <;> simp [TelegramClient.close, httpxClose, h]
  · obtain ⟨m, rfl⟩ : ∃ m, n = m + 1 := ⟨n - 1, (Nat.succ_pred_eq_of_pos hn).symm⟩
    have hstep : closeN (m + 1) freshConn = ⟨true, 1⟩ := closeN_closed m 1
    rw [hstep]
    exact ⟨rfl, rfl⟩

/-- Witness for C7: three consecutive close calls release exactly once. -/
theorem claim_C7_close_idempotent_witness :
    (closeN 3 freshConn).released = 1 ∧ (closeN 3 freshConn).is_closed = true :=
  claim_C7_close_idempotent.2.1 3 (by decide)

/-- The stripped base address never ends in a slash. -/
theorem rstrip_no_trailing (base : String) : endsWithSlash (rstripSlashes base) = false := by
  unfold endsWithSlash rstripSlashes
  rw [show (String.mk ((base.data.reverse.dropWhile fun c => c = '/').reverse)).data
      = (base.data.reverse.dropWhile fun c => c = '/').reverse from rfl]
  rw [List.getLast?_reverse]
  cases hh : (base.data.reverse.dropWhile fun c => c = '/').head? with
  | none => rfl
  | some c => exact head_dropWhile_eq_false _ c hh

/-- Joining any endpoint to the stripped base address never abuts two
slashes. -/
theorem joinDoubleSlash_strip (base endpoint : String) :
    joinDoubleSlash (rstripSlashes base) endpoint = false := by
  unfold joinDoubleSlash
  cases hl : (rstripSlashes base).data.getLast? with
  | none => cases endpoint.data.head? <;> rfl
  | some x =>
    cases hh : endpoint.data.head? with
    | none => rfl
    | some y =>
      have hx : decide (x = '/') = false := by
        have hb := rstrip_no_trailing base
        unfold endsWithSlash at hb
        rw [hl] at hb
        exact hb
      simp [hx]

/-- C9: construction strips every trailing slash from the supplied base
address, the stored base is used unchanged by the dispatcher — each request
URL is exactly the stored base concatenated with the endpoint, which begins
with a slash — and no double slash can occur at the join point. -/
theorem claim_C9_base_url_join :
    (∀ base, (TelegramClient.init base).base_url = rstripSlashes base
      ∧ endsWithSlash (TelegramClient.init base).base_url = false) ∧
    (∀ base endpoint, joinDoubleSlash (TelegramClient.init base).base_url endpoint = false) ∧
    (∀ c method endpoint params json_data,
      (TelegramClient.request c method endpoint params json_data).url
        = c.base_url ++ endpoint) ∧
    (∀ c : TelegramClient, c.health_check.url = c.base_url ++ "/health") ∧
    (∀ (c : TelegramClient) (page page_size : Int),
      (c.get_chats page page_size).url = c.base_url ++ "/chats") ∧
    (∀ (c : TelegramClient) (limit : Int) (ct : Option String) (a u : Bool),
      (c.list_chats limit ct a u).url = c.base_url ++ "/chats/list") ∧
    (∀ (c : TelegramClient) (cid : IntOrStr),
      (c.get_chat cid).url = c.base_url ++ ("/chats/" ++ cid.render)) ∧
    (∀ (c : TelegramClient) (cid : IntOrStr) (page page_size : Int),
      (c.get_messages cid page page_size).url
        = c.base_url ++ ("/chats/" ++ cid.render ++ "/messages")) ∧
    (∀ (c : TelegramClient) (cid : IntOrStr) (msg : String) (r : Option Int)
      (p : Option String),
      (c.send_message cid msg r p).url = c.base_url ++ "/messages/send") ∧
    (∀ (c : TelegramClient) (cid : IntOrStr) (mid : Int) (txt : String),
      (c.edit_message cid mid txt).url = c.base_url ++ "/messages/edit") ∧
    (∀ (c : TelegramClient) (cid : IntOrStr) (mid : Int) (rv : Bool),
      (c.delete_message cid mid rv).url = c.base_url ++ "/messages/delete") ∧
    (∀ (c : TelegramClient) (f t : IntOrStr) (mid : Int),
      (c.forward_message f t mid).url = c.base_url ++ "/messages/forward") ∧
    (∀ (c : TelegramClient) (cid : IntOrStr) (q : String) (l : Int)
      (fu : Option IntOrStr),
      (c.search_messages cid q l fu).url = c.base_url ++ "/messages/search") ∧
    (∀ c : TelegramClient, c.list_contacts.url = c.base_url ++ "/contacts") ∧
    (∀ (c : TelegramClient) (q : String) (l : Int),
      (c.search_contacts q l).url = c.base_url ++ "/contacts/search") ∧
    (∀ (c : TelegramClient) (ph fn : String) (ln : Option String),
      (c.add_contact ph fn ln).url = c.base_url ++ "/contacts") ∧
    (∀ (c : TelegramClient) (uid : IntOrStr),
      (c.delete_contact uid).url = c.base_url ++ ("/contacts/" ++ uid.render)) ∧
    (∀ c : TelegramClient, c.get_me.url = c.base_url ++ "/me") ∧
    (∀ (c : TelegramClient) (uid : IntOrStr),
      (c.get_user_status uid).url = c.base_url ++ ("/users/" ++ uid.render ++ "/status")) ∧
    (∀ (c : TelegramClient) (un : String),
      (c.resolve_username un).url = c.base_url ++ ("/resolve/" ++ un)) ∧
    (∀ (c : TelegramClient) (t : String) (us : List IntOrStr),
      (c.create_group t us).url = c.base_url ++ "/groups") ∧
    (∀ (c : TelegramClient) (cid : IntOrStr) (us : List IntOrStr),
      (c.invite_to_group cid us).url = c.base_url ++ "/groups/invite") ∧
    (∀ (c : TelegramClient) (cid : IntOrStr),
      (c.leave_chat cid).url = c.base_url ++ ("/chats/" ++ cid.render ++ "/leave")) ∧
    (∀ (c : TelegramClient) (cid : IntOrStr) (l o : Int),
      (c.get_participants cid l o).url
        = c.base_url ++ ("/chats/" ++ cid.render ++ "/participants")) ∧
    (∀ (c : TelegramClient) (cid : IntOrStr),
      (c.get_admins cid).url = c.base_url ++ ("/chats/" ++ cid.render ++ "/admins")) ∧
    (∀ (c : TelegramClient) (cid uid : IntOrStr) (t : Option String),
      (c.promote_admin cid uid t).url = c.base_url ++ "/admin/promote") ∧
    (∀ (c : TelegramClient) (cid uid : IntOrStr) (ud : Option Int),
      (c.ban_user cid uid ud).url = c.base_url ++ "/admin/ban") ∧
    (∀ (c : TelegramClient) (cid uid : IntOrStr),
      (c.unban_user cid uid).url = c.base_url ++ "/admin/unban") ∧
    (∀ (c : TelegramClient) (cid : IntOrStr),
      (c.get_invite_link cid).url = c.base_url ++ ("/chats/" ++ cid.render ++ "/invite-link")) ∧
    (∀ (c : TelegramClient) (cid : IntOrStr) (mu : Option Int),
      (c.mute_chat cid mu).url = c.base_url ++ ("/chats/" ++ cid.render ++ "/mute")) ∧
    (∀ (c : TelegramClient) (cid : IntOrStr),
      (c.unmute_chat cid).url = c.base_url ++ ("/chats/" ++ cid.render ++ "/unmute")) ∧
    (∀ (c : TelegramClient) (cid : IntOrStr),
      (c.archive_chat cid).url = c.base_url ++ ("/chats/" ++ cid.render ++ "/archive")) ∧
    (∀ (c : TelegramClient) (cid : IntOrStr),
      (c.unarchive_chat cid).url = c.base_url ++ ("/chats/" ++ cid.render ++ "/unarchive")) ∧
    (∀ (c : TelegramClient) (cid : IntOrStr) (msg : String) (r : Option Int),
      (c.save_draft cid msg r).url = c.base_url ++ "/drafts/save") ∧
    (∀ (c : TelegramClient) (cid : IntOrStr),
      (c.clear_draft cid).url = c.base_url ++ ("/drafts/" ++ cid.render)) := by
  refine ⟨fun base => ⟨rfl, rstrip_no_trailing base⟩,
    fun base endpoint => joinDoubleSlash_strip base endpoint, ?_⟩
  repeat' constructor
  all_goals intros
  all_goals rfl

/-- C10: DELETE bodies go through the single _delete helper, which sends a
JSON body exactly when at least one body parameter was passed; the
parameterless DELETE operations (delete contact, clear draft) send no body at
all — not an empty object — while delete message carries its three
parameters as the body. -/
theorem claim_C10_delete_body :
    (∀ c endpoint data, (TelegramClient.delete c endpoint data).json_data
      = if data.isEmpty then none else some data) ∧
    (∀ c endpoint data, (TelegramClient.delete c endpoint data).method = "DELETE") ∧
    (∀ (c : TelegramClient) (cid : IntOrStr) (mid : Int) (rv : Bool),
      (c.delete_message cid mid rv).json_data
        = some [("chat_id", cid.toJson), ("message_id", .num mid), ("revoke", .bool rv)]) ∧
    (∀ (c : TelegramClient) (uid : IntOrStr), (c.delete_contact uid).json_data = none) ∧
    (∀ (c : TelegramClient) (cid : IntOrStr), (c.clear_draft cid).json_data = none) := by
  refine ⟨fun c endpoint data => ?_, fun c endpoint data => ?_,
    fun c cid mid rv => rfl, fun c uid => rfl, fun c cid => rfl⟩
  · unfold TelegramClient.delete
    cases data <;> rfl
  · unfold TelegramClient.delete
    cases data <;> rfl

/-- C6: every public operation uses the verb of the endpoint catalog, and
parameter placement is fixed by the verb — GET operations carry their
parameters in the query string and no JSON body, while POST, PUT and DELETE
operations that have a payload carry every parameter in the JSON body and
none in the query string. Each conjunct states the operation's full outgoing
request. -/
theorem claim_C6_verb_placement :
    (∀ c : TelegramClient, c.health_check
      = ⟨"GET", c.base_url ++ "/health", none, none⟩) ∧
    (∀ (c : TelegramClient) (page page_size : Int), c.get_chats page page_size
      = ⟨"GET", c.base_url ++ "/chats",
          some [("page", .num page), ("page_size", .num page_size)], none⟩) ∧
    (∀ (c : TelegramClient) (limit : Int) (ct : Option String) (a u : Bool),
      c.list_chats limit ct a u
        = ⟨"GET", c.base_url ++ "/chats/list", some (list_chats_params limit ct a u), none⟩) ∧
    (∀ (c : TelegramClient) (cid : IntOrStr), c.get_chat cid
      = ⟨"GET", c.base_url ++ ("/chats/" ++ cid.render), some [], none⟩) ∧
    (∀ (c : TelegramClient) (cid : IntOrStr) (page page_size : Int),
      c.get_messages cid page page_size
        = ⟨"GET", c.base_url ++ ("/chats/" ++ cid.render ++ "/messages"),
            some [("page", .num page), ("page_size", .num page_size)], none⟩) ∧
    (∀ (c : TelegramClient) (cid : IntOrStr) (msg : String) (r : Option Int)
      (p : Option String), c.send_message cid msg r p
        = ⟨"POST", c.base_url ++ "/messages/send", none,
            some (send_message_data cid msg r p)⟩) ∧
    (∀ (c : TelegramClient) (cid : IntOrStr) (mid : Int) (txt : String),
      c.edit_message cid mid txt
        = ⟨"PUT", c.base_url ++ "/messages/edit", none,
            some [("chat_id", cid.toJson), ("message_id", .num mid),
              ("new_text", .str txt)]⟩) ∧
    (∀ (c : TelegramClient) (cid : IntOrStr) (mid : Int) (rv : Bool),
      c.delete_message cid mid rv
        = ⟨"DELETE", c.base_url ++ "/messages/delete", none,
            some [("chat_id", cid.toJson), ("message_id", .num mid),
              ("revoke", .bool rv)]⟩) ∧
    (∀ (c : TelegramClient) (f t : IntOrStr) (mid : Int), c.forward_message f t mid
      = ⟨"POST", c.base_url ++ "/messages/forward", none,
          some [("from_chat_id", f.toJson), ("to_chat_id", t.toJson),
            ("message_id", .num mid)]⟩) ∧
    (∀ (c : TelegramClient) (cid : IntOrStr) (q : String) (l : Int)
      (fu : Option IntOrStr), c.search_messages cid q l fu
        = ⟨"POST", c.base_url ++ "/messages/search", none,
            some (search_messages_data cid q l fu)⟩) ∧
    (∀ c : TelegramClient, c.list_contacts
      = ⟨"GET", c.base_url ++ "/contacts", some [], none⟩) ∧
    (∀ (c : TelegramClient) (q : String) (l : Int), c.search_contacts q l
      = ⟨"GET", c.base_url ++ "/contacts/search",
          some [("query", .str q), ("limit", .num l)], none⟩) ∧
    (∀ (c : TelegramClient) (ph fn : String) (ln : Option String), c.add_contact ph fn ln
      = ⟨"POST", c.base_url ++ "/contacts", none, some (add_contact_data ph fn ln)⟩) ∧
    (∀ (c : TelegramClient) (uid : IntOrStr), c.delete_contact uid
      = ⟨"DELETE", c.base_url ++ ("/contacts/" ++ uid.render), none, none⟩) ∧
    (∀ c : TelegramClient, c.get_me = ⟨"GET", c.base_url ++ "/me", some [], none⟩) ∧
    (∀ (c : TelegramClient) (uid : IntOrStr), c.get_user_status uid
      = ⟨"GET", c.base_url ++ ("/users/" ++ uid.render ++ "/status"), some [], none⟩) ∧
    (∀ (c : TelegramClient) (un : String), c.resolve_username un
      = ⟨"GET", c.base_url ++ ("/resolve/" ++ un), some [], none⟩) ∧
    (∀ (c : TelegramClient) (t : String) (us : List IntOrStr), c.create_group t us
      = ⟨"POST", c.base_url ++ "/groups", none,
          some [("title", .str t), ("users", .arr (us.map IntOrStr.toJson))]⟩) ∧
    (∀ (c : TelegramClient) (cid : IntOrStr) (us : List IntOrStr), c.invite_to_group cid us
      = ⟨"POST", c.base_url ++ "/groups/invite", none,
          some [("chat_id", cid.toJson), ("user_ids", .arr (us.map IntOrStr.toJson))]⟩) ∧
    (∀ (c : TelegramClient) (cid : IntOrStr), c.leave_chat cid
      = ⟨"POST", c.base_url ++ ("/chats/" ++ cid.render ++ "/leave"), none, some []⟩) ∧
    (∀ (c : TelegramClient) (cid : IntOrStr) (l o : Int), c.get_participants cid l o
      = ⟨"GET", c.base_url ++ ("/chats/" ++ cid.render ++ "/participants"),
          some [("limit", .num l), ("offset", .num o)], none⟩) ∧
    (∀ (c : TelegramClient) (cid : IntOrStr), c.get_admins cid
      = ⟨"GET", c.base_url ++ ("/chats/" ++ cid.render ++ "/admins"), some [], none⟩) ∧
    (∀ (c : TelegramClient) (cid uid : IntOrStr) (t : Option String),
      c.promote_admin cid uid t
        = ⟨"POST", c.base_url ++ "/admin/promote", none,
            some (promote_admin_data cid uid t)⟩) ∧
    (∀ (c : TelegramClient) (cid uid : IntOrStr) (ud : Option Int), c.ban_user cid uid ud
      = ⟨"POST", c.base_url ++ "/admin/ban", none, some (ban_user_data cid uid ud)⟩) ∧
    (∀ (c : TelegramClient) (cid uid : IntOrStr), c.unban_user cid uid
      = ⟨"POST", c.base_url ++ "/admin/unban", none,
          some [("chat_id", cid.toJson), ("user_id", uid.toJson)]⟩) ∧
    (∀ (c : TelegramClient) (cid : IntOrStr), c.get_invite_link cid
      = ⟨"GET", c.base_url ++ ("/chats/" ++ cid.render ++ "/invite-link"), some [], none⟩) ∧
    (∀ (c : TelegramClient) (cid : IntOrStr) (mu : Option Int), c.mute_chat cid mu
      = ⟨"POST", c.base_url ++ ("/chats/" ++ cid.render ++ "/mute"), none,
          some (mute_chat_params mu)⟩) ∧
    (∀ (c : TelegramClient) (cid : IntOrStr), c.unmute_chat cid
      = ⟨"POST", c.base_url ++ ("/chats/" ++ cid.render ++ "/unmute"), none, some []⟩) ∧
    (∀ (c : TelegramClient) (cid : IntOrStr), c.archive_chat cid
      = ⟨"POST", c.base_url ++ ("/chats/" ++ cid.render ++ "/archive"), none, some []⟩) ∧
    (∀ (c : TelegramClient) (cid : IntOrStr), c.unarchive_chat cid
      = ⟨"POST", c.base_url ++ ("/chats/" ++ cid.render ++ "/unarchive"), none, some []⟩) ∧
    (∀ (c : TelegramClient) (cid : IntOrStr) (msg : String) (r : Option Int),
      c.save_draft cid msg r
        = ⟨"POST", c.base_url ++ "/drafts/save", none, some (save_draft_data cid msg r)⟩) ∧
    (∀ (c : TelegramClient) (cid : IntOrStr), c.clear_draft cid
      = ⟨"DELETE", c.base_url ++ ("/drafts/" ++ cid.render), none, none⟩) := by
  repeat' constructor
  all_goals intros
  all_goals rfl

/-- Counterexample to C4 as stated: a caller-provided falsy optional value is
dropped from the payload. Here reply_to is provided as 0, until_date as 0 and
last_name as the empty string, yet the corresponding keys are absent, so "the
key appears if and only if the caller provided the parameter" fails. -/
theorem claim_C4_counterexample :
    hasKey (send_message_data (.int 1) "hi" (some 0) none) "reply_to" = false ∧
    hasKey (ban_user_data (.int 1) (.int 2) (some 0)) "until_date" = false ∧
    hasKey (add_contact_data "+15550100" "Ann" (some "")) "last_name" = false :=
  ⟨rfl, rfl, rfl⟩

/-- C4 amended: for every operation with optional parameters, the optional
key appears in the outgoing payload if and only if the caller provided a
truthy value — a provided falsy value (0 or the empty string) is omitted
exactly like an absent parameter, because the source guards each optional
with a bare truthiness test; when the key is present it carries the provided
value, never null or an empty marker. -/
theorem claim_C4_optional_truthiness :
    (∀ (cid : IntOrStr) (msg : String) (r : Option Int) (p : Option String),
      lookupLast (send_message_data cid msg r p) "reply_to"
        = (match r with
           | some v => if v = 0 then none else some (Json.num v)
           | none => none) ∧
      lookupLast (send_message_data cid msg r p) "parse_mode"
        = (match p with
           | some t => if t = "" then none else some (Json.str t)
           | none => none)) ∧
    (∀ (ph fn : String) (ln : Option String),
      lookupLast (add_contact_data ph fn ln) "last_name"
        = (match ln with
           | some t => if t = "" then none else some (Json.str t)
           | none => none)) ∧
    (∀ (cid uid : IntOrStr) (t : Option String),
      lookupLast (promote_admin_data cid uid t) "title"
        = (match t with
           | some v => if v = "" then none else some (Json.str v)
           | none => none)) ∧
    (∀ (cid uid : IntOrStr) (ud : Option Int),
      lookupLast (ban_user_data cid uid ud) "until_date"
        = (match ud with
           | some v => if v = 0 then none else some (Json.num v)
           | none => none)) ∧
    (∀ mu : Option Int,
      lookupLast (mute_chat_params mu) "mute_until"
        = (match mu with
           | some v => if v = 0 then none else some (Json.num v)
           | none => none)) ∧
    (∀ (cid : IntOrStr) (msg : String) (r : Option Int),
      lookupLast (save_draft_data cid msg r) "reply_to"
        = (match r with
           | some v => if v = 0 then none else some (Json.num v)
           | none => none)) ∧
    (∀ (cid : IntOrStr) (q : String) (l : Int) (fu : Option IntOrStr),
      lookupLast (search_messages_data cid q l fu) "from_user"
        = (match fu with
           | some u => if u.isTruthy then some u.toJson else none
           | none => none)) ∧
    (∀ (l : Int) (ct : Option String) (a uo : Bool),
      lookupLast (list_chats_params l ct a uo) "chat_type"
        = (match ct with
           | some t => if t = "" then none else some (Json.str t)
           | none => none)) := by
  refine ⟨fun cid msg r p => ⟨?_, ?_⟩, fun ph fn ln => ?_, fun cid uid t => ?_,
    fun cid uid ud => ?_, fun mu => ?_, fun cid msg r => ?_, fun cid q l fu => ?_,
    fun l ct a uo => ?_⟩
  · rcases r with _ | v <;> rcases p with _ | t <;>
      simp only [send_message_data] <;> first
        | (split_ifs <;> rfl)
        | rfl
  · rcases r with _ | v <;> rcases p with _ | t <;>
      simp only [send_message_data] <;> first
        | (split_ifs <;> rfl)
        | rfl
  · rcases ln with _ | t <;> simp only [add_contact_data] <;> first
      | (split_ifs <;> rfl)
      | rfl
  · rcases t with _ | v <;> simp only [promote_admin_data] <;> first
      | (split_ifs <;> rfl)
      | rfl
  · rcases ud with _ | v <;> simp only [ban_user_data] <;> first
      | (split_ifs <;> rfl)
      | rfl
  · rcases mu with _ | v <;> simp only [mute_chat_params] <;> first
      | (split_ifs <;> rfl)
      | rfl
  · rcases r with _ | v <;> simp only [save_draft_data] <;> first
      | (split_ifs <;> rfl)
      | rfl
  · rcases fu with _ | u <;> simp only [search_messages_data] <;> first
      | (split_ifs <;> rfl)
      | rfl
  · rcases ct with _ | t <;> simp only [list_chats_params] <;> first
      | (split_ifs <;> rfl)
      | rfl
